import Mathlib

/-
Verification of the marketing-site ingestion pipeline
(course_discovery/apps/course_metadata/data_loaders/marketing_site.py)
against its natural-language specification.

The Python source is shallowly embedded: dictionaries become structures,
nullable JSON fields become Option, raising code returns Except, and the
persistence layer (an external collaborator per the spec) is modelled as
explicit lists of records threaded through the functions.
-/

set_option autoImplicit false

namespace MarketingSite

/-- Parses a list of decimal digit characters to a natural number, as the
digit portion of Python int() does; none when empty or non-digit. -/
def digitsToNat (cs : List Char) : Option Nat :=
  if cs = [] then none
  else if cs.all Char.isDigit then
    some (cs.foldl (fun acc c => acc * 10 + (c.toNat - 48)) 0)
  else none

/-- Embedding of Python int(s) on a trimmed string: optional sign followed by
decimal digits; none models a raised ValueError. -/
def pyInt (s : String) : Option Int :=
  match s.toList with
  | [] => none
  | c :: rest =>
    if c = '-' then (digitsToNat rest).map (fun n => -(n : Int))
    else if c = '+' then (digitsToNat rest).map (fun n => (n : Int))
    else (digitsToNat (c :: rest)).map (fun n => (n : Int))

/-- Embedding of Python range(a, b) with the default step of 1. -/
def pythonRange (a b : Int) : List Int :=
  (List.range (b - a).toNat).map (fun (i : Nat) => a + (i : Int))

/-- Embedding of Python str.lstrip(chars): removes every leading character
belonging to the character set, not a literal prefix. -/
def pyLstrip (chars : List Char) (s : String) : String :=
  String.mk (s.toList.dropWhile (fun c => chars.contains c))

/-- Embedding of Python str.strip() with no argument: whitespace removed
from both ends. -/
def pyStrip (s : String) : String :=
  String.mk (((s.toList.dropWhile Char.isWhitespace).reverse.dropWhile
    Char.isWhitespace).reverse)

/-- Splits a character list on a single separator character, accumulating the
current piece in reverse; every Python str.split call in the loader uses a
one-character separator. -/
def splitCharAux (sep : Char) : List Char → List Char → List String
  | [], acc => [String.mk acc.reverse]
  | c :: rest, acc =>
    if c = sep then String.mk acc.reverse :: splitCharAux sep rest []
    else splitCharAux sep rest (c :: acc)

/-- Embedding of Python s.split(sep) for a one-character separator. -/
def splitChar (sep : Char) (s : String) : List String :=
  splitCharAux sep s.toList []

/-- Characters strictly after the first occurrence of the separator, or none
when the separator does not occur. -/
def afterFirst (sep : Char) : List Char → Option (List Char)
  | [] => none
  | c :: rest => if c = sep then some rest else afterFirst sep rest

/-- Embedding of url.split(slash)[-1], the trailing path segment used as a
slug by several node processors. -/
def lastSegment (url : String) : String :=
  (splitChar '/' url).getLastD ""

/-- Embedding of the query component returned by urlparse: the fragment
(after the first hash) is discarded, then everything after the first
question mark is the query string (empty when there is none). -/
def urlQuery (url : String) : String :=
  let beforeFrag := url.toList.takeWhile (fun c => c ≠ '#')
  String.mk ((afterFirst '?' beforeFrag).getD [])

/-- One key=value piece of a query string: the key is everything before the
first equals sign and the value everything after it; pieces with no equals
sign or a blank value are dropped, as parse_qs does with keep_blank_values
left False. -/
def qsPair (part : String) : Option (String × String) :=
  match afterFirst '=' part.toList with
  | none => none
  | some v =>
    if v = [] then none
    else some (String.mk (part.toList.takeWhile (fun c => c ≠ '=')), String.mk v)

/-- Embedding of urllib.parse.parse_qs restricted to what the loader reads:
the query splits on ampersands into key=value pairs kept in order, so the
first value of a key is recoverable. Percent-decoding is not modelled; the
pagination links the loader parses carry plain numeric page parameters. -/
def parseQs (query : String) : List (String × String) :=
  (splitChar '&' query).filterMap qsPair

/-- First value recorded for a key, matching parse_qs(qs)[key][0]; none
models the KeyError raised when the key is absent. -/
def qsFirst (pairs : List (String × String)) (key : String) : Option String :=
  (pairs.find? (fun p => p.1 == key)).map Prod.snd

/-- Embedding of AbstractMarketingSiteDataLoader._extract_page:
int(parse_qs(urlparse(url).query)[page][0]); .error models the exception
raised on a missing page parameter or a non-numeric value. -/
def extract_page (url : String) : Except Unit Int :=
  match qsFirst (parseQs (urlQuery url)) "page" with
  | none => .error ()
  | some v =>
    match pyInt v with
    | some n => .ok n
    | none => .error ()

/-- Pagination metadata of the first page's JSON body, as read by ingest:
whether a next link is present, and the first and last link URLs. -/
structure PageMeta where
  hasNext : Bool
  first : String
  last : String

/-- Embedding of the page-scheduling portion of
AbstractMarketingSiteDataLoader.ingest: page 0 has already been fetched and
processed; when a next link exists, the additionally scheduled pages are
range(extract_page(first) + 1, extract_page(last) + 1). -/
def scheduledPages (meta : PageMeta) : Except Unit (List Int) :=
  if meta.hasNext then
    match extract_page meta.first, extract_page meta.last with
    | .ok f, .ok l => .ok (pythonRange (f + 1) (l + 1))
    | _, _ => .error ()
  else .ok []

/-- A raw node as seen by the response processor: the optional url field
(reading node with a missing url key raises KeyError) plus an opaque
payload standing for the rest of the record. -/
structure RawNode where
  url : Option String
  payload : String

/-- Failure modes of _process_response: a non-200 page raises, and the
bare-except logging handler itself raises UnboundLocalError when it
evaluates the local variable url before any node has bound it. -/
inductive ProcessError where
  | statusError (url : String) (status : Nat)
  | unboundLocalError

/-- Embedding of the per-node loop of _process_response. The local variable
url is assigned inside the try block, so when the current node lacks a url
key the except handler sees either the previous node's url (and logs that
stale value, continuing) or no binding at all, in which case evaluating url
inside the handler raises UnboundLocalError, which propagates. The process
argument stands for clean_strings followed by the type-specific
process_node; any exception it raises is caught and logged with the current
node's url. -/
def processNodes (process : RawNode → Except Unit Unit) :
    List RawNode → Option String → Except ProcessError Unit
  | [], _ => .ok ()
  | n :: rest, lastUrl =>
    match n.url with
    | some u =>
      match process n with
      | .ok _ => processNodes process rest (some u)
      | .error _ => processNodes process rest (some u)
    | none =>
      match lastUrl with
      | some _ => processNodes process rest lastUrl
      | none => .error .unboundLocalError

/-- A page response: its URL, HTTP status code and decoded node list. -/
structure PageResponse where
  url : String
  status : Nat
  nodes : List RawNode

/-- Embedding of AbstractMarketingSiteDataLoader._process_response:
_check_status_code raises for any non-200 status, then every node of the
list is dispatched through the try/except isolation loop. -/
def process_response (process : RawNode → Except Unit Unit)
    (resp : PageResponse) : Except ProcessError Unit :=
  if resp.status ≠ 200 then .error (.statusError resp.url resp.status)
  else processNodes process resp.nodes none

/-- A node processor that always succeeds, used to exercise the response
loop on inputs where the per-node try block fails before dispatch. -/
def alwaysOkProcess : RawNode → Except Unit Unit := fun _ => .ok ()

/-- Character set passed to lstrip by XSeriesMarketingSiteDataLoader:
str.lstrip treats its argument as a set of characters, not as a literal
prefix to remove. -/
def overviewHeadingChars : List Char := "### XSeries Program Overview".toList

/-- Embedding of the overview post-processing in
XSeriesMarketingSiteDataLoader.process_node, applied to the already
HTML-cleaned body text: lstrip with the heading string, then strip. -/
def xseriesOverview (cleaned : String) : String :=
  pyStrip (pyLstrip overviewHeadingChars cleaned)

/-- Overview post-processing as the specification words it: trim exactly the
literal heading when the text starts with it, then strip whitespace; any
other text is left intact apart from whitespace stripping. -/
def xseriesOverviewSpec (cleaned : String) : String :=
  if overviewHeadingChars.isPrefixOf cleaned.toList then
    pyStrip (String.mk (cleaned.toList.drop overviewHeadingChars.length))
  else pyStrip cleaned

/-- Scalar JSON value as Python sees it, for the one field whose handling
depends on the runtime type: the hidden flag is compared against the True
object with an identity check. -/
inductive PyVal where
  | pbool (b : Bool)
  | pint (n : Int)
  | pstr (s : String)
deriving DecidableEq

/-- Element of a relation-list field: an optional uuid (read with dict.get,
so it may be absent) and a name (used by the language extraction, which
reads it unconditionally). -/
structure RawRef where
  uuid : Option String
  name : String

/-- An already-persisted entity resolvable by uuid (organization, subject or
person); only its identity matters for cross-reference resolution. -/
structure RefEntity where
  uuid : String
deriving DecidableEq

/-- CourseRunStatus choices. -/
inductive RunStatus where
  | published
  | unpublished
deriving DecidableEq

/-- CourseRunPacing choices. -/
inductive Pacing where
  | selfPaced
  | instructorPaced
deriving DecidableEq

/-- Video reference produced by get_or_create_video. -/
structure VideoRef where
  src : String
  image : Option String
deriving DecidableEq

/-- Modelled from the spec: AbstractDataLoader.get_or_create_video is
outside the ingestion file; media references are simple create/find
operations, a falsy (missing or blank) video URL yields no video and
otherwise the reference carries the source URL and the optional image
URL. -/
def get_or_create_video (videoUrl : Option String) (imageUrl : Option String) :
    Option VideoRef :=
  match videoUrl with
  | none => none
  | some u => if u = "" then none else some (VideoRef.mk u imageUrl)

/-- Modelled from the spec: AbstractDataLoader.clean_html is outside the
ingestion file and its internals are explicitly out of scope; it is taken
as the identity on already-clean text. -/
def clean_html (s : String) : String := s

/-- Modelled from the spec: the course key is derived from the structured
course-run identifier, here in the slash-separated org/course/run form, by
keeping the org and course components; a malformed identifier raises the
key-parsing error (none). -/
def get_course_key_from_course_run_key (runKey : String) : Option String :=
  match splitChar '/' runKey with
  | [org, course, rest] =>
    if org = "" ∨ course = "" ∨ rest = "" then none
    else some (org ++ "/" ++ course)
  | _ => none

/-- Mutable Course fields written from a node's defaults dictionary. -/
structure CourseFields where
  title : String
  number : String
  full_description : String
  short_description : String
  video : Option VideoRef
  level_type : Option String
  card_image_url : Option String
deriving DecidableEq

/-- A persisted Course row with its relation sets (held as entity uuids). -/
structure CourseRecord where
  partner : String
  key : String
  fields : CourseFields
  subjects : List String
  authoring_organizations : List String
deriving DecidableEq

/-- A persisted CourseRun row; endDate stands for the end column, which the
loader never writes. -/
structure CourseRunRecord where
  key : String
  courseKey : String
  uuid : String
  title_override : String
  language : Option String
  slug : String
  card_image_url : Option String
  status : RunStatus
  start : Option Int
  endDate : Option Int
  pacing_type : Pacing
  hidden : Bool
  weeks_to_complete : Option Int
  mobile_available : Bool
  staff : List String
  transcript_languages : List String
deriving DecidableEq

/-- The catalog persistence layer visible to the course loader: course and
course-run rows plus the pre-existing reference data used by
cross-reference resolution. -/
structure Catalog where
  courses : List CourseRecord
  runs : List CourseRunRecord
  organizations : List RefEntity
  subjects : List RefEntity
  persons : List RefEntity
  languageTags : List String
deriving DecidableEq

/-- The fields of a course node that CourseMarketingSiteDataLoader reads.
Nested Drupal wrappers are flattened: a field holding an object with a
value or url key becomes the optional string inside, absent or null fields
become none; plain numeric fields arrive as strings, as the int() calls in
the source expect. -/
structure CourseNodeData where
  uuid : String
  url : String
  status : String
  field_course_id : String
  field_course_course_title : String
  field_course_code : String
  field_course_body : Option String
  field_course_description : Option String
  field_course_sub_title_short : String
  field_course_level : String
  field_course_image_promoted : Option String
  field_product_video : Option String
  field_course_image_featured_card : Option String
  field_course_self_paced : Option Bool
  field_couse_is_hidden : Option PyVal
  field_course_start_date : Option String
  field_course_end_date : Option String
  field_course_required_weeks : Option String
  field_course_enrollment_mobile : Option Bool
  field_course_languages : List RawRef
  field_course_video_locale_lang : List RawRef
  field_course_school_node : List RawRef
  field_course_subject : List RawRef
  field_course_staff : List RawRef

/-- Embedding of CourseMarketingSiteDataLoader.LANGUAGE_MAP with dict.get
semantics: an unmapped name yields none. -/
def LANGUAGE_MAP (name : String) : Option String :=
  if name = "English" then some "en-us"
  else if name = "日本語" then some "ja"
  else if name = "繁體中文" then some "zh-Hant"
  else if name = "Indonesian" then some "id"
  else if name = "Italian" then some "it-it"
  else if name = "Korean" then some "ko"
  else if name = "Simplified Chinese" then some "zh-Hans"
  else if name = "Deutsch" then some "de-de"
  else if name = "Español" then some "es-es"
  else if name = "Français" then some "fr-fr"
  else if name = "Nederlands" then some "nl-nl"
  else if name = "Português" then some "pt-pt"
  else if name = "Pусский" then some "ru"
  else if name = "Svenska" then some "sv-se"
  else if name = "Türkçe" then some "tr"
  else if name = "العربية" then some "ar-sa"
  else if name = "हिंदी" then some "hi"
  else if name = "中文" then some "zh-cmn"
  else none

/-- Embedding of get_language_tags_from_names: map the names through
LANGUAGE_MAP and keep the existing language tags whose code is in the
resulting list (code__in ignores unmapped None entries). -/
def get_language_tags_from_names (tagsDb : List String) (names : List String) :
    List String :=
  let language_codes := names.map LANGUAGE_MAP
  tagsDb.filter (fun c => language_codes.contains (some c))

/-- Embedding of _extract_language_tags: strip each raw name, then resolve
through the fixed name-to-code mapping. -/
def extract_language_tags (tagsDb : List String) (raw : List RawRef) :
    List String :=
  get_language_tags_from_names tagsDb (raw.map (fun r => pyStrip r.name))

/-- Embedding of _get_objects_by_uuid: collect the optional uuid of every
raw reference and return the already-persisted entities whose uuid occurs
among them; nothing is created and unmatched uuids are dropped. -/
def get_objects_by_uuid (db : List RefEntity) (raw : List RawRef) :
    List RefEntity :=
  let uuids := raw.map RawRef.uuid
  db.filter (fun e => uuids.contains (some e.uuid))

/-- Python x or y on optional strings: the first operand wins when it is
truthy (present and non-empty). -/
def pyOrStr (a b : Option String) : Option String :=
  match a with
  | some s => if s = "" then b else some s
  | none => b

/-- Embedding of get_description: the course body value, else the course
description value, else the empty string, HTML-cleaned. -/
def get_description (d : CourseNodeData) : String :=
  clean_html ((pyOrStr (pyOrStr d.field_course_body d.field_course_description)
    (some "")).getD "")

/-- Embedding of get_course_run_status: Published when bool(int(status)),
.error when int() raises on a non-numeric status string. -/
def get_course_run_status (d : CourseNodeData) : Except Unit RunStatus :=
  match pyInt d.status with
  | none => .error ()
  | some n => .ok (if n ≠ 0 then .published else .unpublished)

/-- Embedding of get_level_type: a falsy (blank) name maps to no level
type, otherwise get_or_create yields the level type with that name. -/
def get_level_type (name : String) : Option String :=
  if name = "" then none else some name

/-- Embedding of get_video: the nested product-video url and featured-card
image url fed to get_or_create_video. -/
def get_video (d : CourseNodeData) : Option VideoRef :=
  get_or_create_video d.field_product_video d.field_course_image_featured_card

/-- Embedding of get_pacing_type: self-paced exactly when the self-paced
field is truthy, defaulting to instructor-paced. -/
def get_pacing_type (d : CourseNodeData) : Pacing :=
  if d.field_course_self_paced.getD false then .selfPaced else .instructorPaced

/-- Embedding of get_hidden: the misspelled field is read with a False
default and compared against True with an identity check, so only the
boolean True value yields a hidden run. -/
def get_hidden (d : CourseNodeData) : Bool :=
  match d.field_couse_is_hidden with
  | some (.pbool b) => b
  | _ => false

/-- Embedding of the start and end handling in create_course_run: an absent
or falsy (blank) field stays None, a numeric value becomes the timestamp
fed to datetime.fromtimestamp, and a non-numeric value raises through
int(). -/
def parseTimestamp (field : Option String) : Except Unit (Option Int) :=
  match field with
  | none => .ok none
  | some s =>
    if s = "" then .ok none
    else
      match pyInt s with
      | some n => .ok (some n)
      | none => .error ()

/-- Fuel-bounded enumeration of the weekly occurrences cur, cur + one week,
... while they do not exceed the end timestamp. -/
def weeklyOccAux : Nat → Int → Int → List Int
  | 0, _, _ => []
  | fuel + 1, cur, endTs =>
    if cur ≤ endTs then cur :: weeklyOccAux fuel (cur + 604800) endTs else []

/-- Modelled from the spec: dateutil rrule with a WEEKLY frequency, dtstart
at the start timestamp and until at the end timestamp enumerates the
occurrences start, start + one week, ... through end inclusive; a week is
604800 seconds. The fuel bounds the enumeration and is large enough for
every occurrence. -/
def weeklyOccurrences (start endTs : Int) : List Int :=
  weeklyOccAux ((endTs - start).toNat / 604800 + 1) start endTs

/-- The duration branch of create_course_run given the already parsed
start and end: a truthy explicit weeks field wins and is converted with
int() (raising on a non-numeric value), else both timestamps present give
the weekly recurrence count, else the weeks stay None. -/
def weeksFromFields (weeksField : Option String) (start endTs : Option Int) :
    Except Unit (Option Int) :=
  match weeksField with
  | some w =>
    if w = "" then weeksFallback start endTs
    else
      match pyInt w with
      | some n => .ok (some n)
      | none => .error ()
  | none => weeksFallback start endTs
where
  weeksFallback (start endTs : Option Int) : Except Unit (Option Int) :=
    match start, endTs with
    | some s, some e => .ok (some ((weeklyOccurrences s e).length : Int))
    | _, _ => .ok none

/-- The weeks_to_complete computation of create_course_run as a function of
the three raw fields: parse the start and end timestamps as the source does
before the duration branch, then select the duration source. -/
def computeWeeksToComplete (weeksField startField endField : Option String) :
    Except Unit (Option Int) :=
  match parseTimestamp startField, parseTimestamp endField with
  | .ok s, .ok e => weeksFromFields weeksField s e
  | _, _ => .error ()

/-- ASCII lowering used to model the case-insensitive iexact lookups. -/
def toLowerStr (s : String) : String :=
  String.mk (s.toList.map Char.toLower)

/-- Case-insensitive run-key comparison of the key__iexact lookup in
create_course_run; note the lookup is not scoped by partner. -/
def runKeyMatches (key : String) (r : CourseRunRecord) : Bool :=
  toLowerStr r.key == toLowerStr key

/-- The defaults dictionary built by create_course_run (the end timestamp
is parsed but deliberately not part of it). -/
structure RunDefaults where
  key : String
  courseKey : String
  uuid : String
  title_override : String
  language : Option String
  slug : String
  card_image_url : Option String
  status : RunStatus
  start : Option Int
  pacing_type : Pacing
  hidden : Bool
  weeks_to_complete : Option Int
  mobile_available : Bool
deriving DecidableEq

/-- Embedding of the defaults dictionary of create_course_run as a function
of the node data and the already-computed language, start, status and
weeks values. -/
def course_run_defaults (courseKey : String) (d : CourseNodeData)
    (language : Option String) (start : Option Int) (status : RunStatus)
    (weeks : Option Int) : RunDefaults where
  key := d.field_course_id
  courseKey := courseKey
  uuid := d.uuid
  title_override := clean_html d.field_course_course_title
  language := language
  slug := lastSegment d.url
  card_image_url := d.field_course_image_promoted
  status := status
  start := start
  pacing_type := get_pacing_type d
  hidden := get_hidden d
  weeks_to_complete := weeks
  mobile_available := d.field_course_enrollment_mobile.getD false

/-- In-place update of an existing run row with every key of the defaults
dictionary, as update_or_create performs on its update path. -/
def applyRunDefaults (r : CourseRunRecord) (df : RunDefaults) : CourseRunRecord :=
  { r with
    key := df.key
    courseKey := df.courseKey
    uuid := df.uuid
    title_override := df.title_override
    language := df.language
    slug := df.slug
    card_image_url := df.card_image_url
    status := df.status
    start := df.start
    pacing_type := df.pacing_type
    hidden := df.hidden
    weeks_to_complete := df.weeks_to_complete
    mobile_available := df.mobile_available }

/-- A fresh run row created from the defaults dictionary on the create path
of update_or_create: the unset end column and relation sets start empty. -/
def newRunFromDefaults (df : RunDefaults) : CourseRunRecord where
  key := df.key
  courseKey := df.courseKey
  uuid := df.uuid
  title_override := df.title_override
  language := df.language
  slug := df.slug
  card_image_url := df.card_image_url
  status := df.status
  start := df.start
  endDate := none
  pacing_type := df.pacing_type
  hidden := df.hidden
  weeks_to_complete := df.weeks_to_complete
  mobile_available := df.mobile_available
  staff := []
  transcript_languages := []

/-- Embedding of set_course_run_staff: clear then add whatever resolves by
uuid among the persisted people. -/
def set_course_run_staff (personsDb : List RefEntity) (r : CourseRunRecord)
    (d : CourseNodeData) : CourseRunRecord :=
  let resolved := (get_objects_by_uuid personsDb d.field_course_staff).map RefEntity.uuid
  { r with staff := resolved }

/-- Embedding of set_course_run_transcript_languages: clear then add the
resolved language tags. -/
def set_course_run_transcript_languages (tagsDb : List String)
    (r : CourseRunRecord) (d : CourseNodeData) : CourseRunRecord :=
  let resolved := extract_language_tags tagsDb d.field_course_video_locale_lang
  { r with transcript_languages := resolved }

/-- Embedding of CourseMarketingSiteDataLoader.create_course_run. The
persistence operation update_or_create(key__iexact) is modelled from the
spec where it is an external collaborator: no existing row with the key
creates one from the defaults, exactly one row updates it in place with the
defaults, and several rows matching the key raise the error that the
surrounding handler catches, logs and converts to a None result with no
write. Timestamp, status or weeks parsing raises before any write. -/
def create_course_run (cat : Catalog) (courseKey : String) (d : CourseNodeData) :
    Except Unit (Catalog × Option CourseRunRecord) :=
  let key := d.field_course_id
  let language_tags := extract_language_tags cat.languageTags d.field_course_languages
  let language := language_tags.head?
  match parseTimestamp d.field_course_start_date with
  | .error e => .error e
  | .ok start =>
    match parseTimestamp d.field_course_end_date with
    | .error e => .error e
    | .ok endTs =>
      match get_course_run_status d with
      | .error e => .error e
      | .ok status =>
        match weeksFromFields d.field_course_required_weeks start endTs with
        | .error e => .error e
        | .ok weeks =>
          let df := course_run_defaults courseKey d language start status weeks
          match cat.runs.filter (runKeyMatches key) with
          | [] =>
            let r1 := set_course_run_transcript_languages cat.languageTags
              (set_course_run_staff cat.persons (newRunFromDefaults df) d) d
            .ok ({ cat with runs := cat.runs ++ [r1] }, some r1)
          | [r] =>
            let r1 := set_course_run_transcript_languages cat.languageTags
              (set_course_run_staff cat.persons (applyRunDefaults r df) d) d
            let runs1 := cat.runs.map (fun x => if runKeyMatches key x then r1 else x)
            .ok ({ cat with runs := runs1 }, some r1)
          | _ => .ok (cat, none)

/-- Case-insensitive course lookup predicate of the get_or_create call in
process_node, scoped by partner. -/
def coursePred (partner key : String) (c : CourseRecord) : Bool :=
  c.partner == partner && toLowerStr c.key == toLowerStr key

/-- Embedding of set_subjects: clear then add whatever resolves by uuid. -/
def set_subjects (subjectsDb : List RefEntity) (c : CourseRecord)
    (d : CourseNodeData) : CourseRecord :=
  let resolved := (get_objects_by_uuid subjectsDb d.field_course_subject).map RefEntity.uuid
  { c with subjects := resolved }

/-- Embedding of set_authoring_organizations: clear then add whatever
resolves by uuid. -/
def set_authoring_organizations (orgsDb : List RefEntity) (c : CourseRecord)
    (d : CourseNodeData) : CourseRecord :=
  let resolved := (get_objects_by_uuid orgsDb d.field_course_school_node).map RefEntity.uuid
  { c with authoring_organizations := resolved }

/-- Embedding of CourseMarketingSiteDataLoader.process_node. The course key
comes from the structured run identifier, the title value is cleaned in
place, a course is fetched or created case-insensitively by key and
partner, the mutable fields are overwritten only for an existing course
whose source record is Published, the subject and authoring-organization
sets are replaced on every pass, and exactly one course-run child is then
upserted. An error result models a raised exception. -/
def course_process_node (cat : Catalog) (partner : String) (d0 : CourseNodeData) :
    Except Unit (Catalog × CourseRecord) :=
  match get_course_key_from_course_run_key d0.field_course_id with
  | none => .error ()
  | some key =>
    let d := { d0 with
      field_course_course_title := clean_html d0.field_course_course_title }
    let defaults : CourseFields :=
      { title := clean_html d.field_course_course_title
        number := d.field_course_code
        full_description := get_description d
        video := get_video d
        short_description := clean_html d.field_course_sub_title_short
        level_type := get_level_type d.field_course_level
        card_image_url := d.field_course_image_promoted }
    let existing := cat.courses.find? (coursePred partner key)
    let created := existing.isNone
    let course0 := match existing with
      | some c => c
      | none => CourseRecord.mk partner key defaults [] []
    match get_course_run_status d with
    | .error e => .error e
    | .ok status =>
      let course1 :=
        if created = false ∧ status = RunStatus.published then
          { course0 with key := key, fields := defaults }
        else course0
      let course2 := set_subjects cat.subjects course1 d
      let course3 := set_authoring_organizations cat.organizations course2 d
      let courses1 :=
        if created then cat.courses ++ [course3]
        else cat.courses.map (fun x => if coursePred partner key x then course3 else x)
      let cat1 := { cat with courses := courses1 }
      match create_course_run cat1 course3.key d with
      | .error e => .error e
      | .ok (cat2, _) => .ok (cat2, course3)

/-- A course node record with every optional field absent and blank scalar
fields, parameterised by identity and title; the concrete claims
instantiate it with Unpublished temp data. -/
def plainCourseNode (uuid url status runKey title : String) : CourseNodeData where
  uuid := uuid
  url := url
  status := status
  field_course_id := runKey
  field_course_course_title := title
  field_course_code := "6.002x"
  field_course_body := none
  field_course_description := none
  field_course_sub_title_short := ""
  field_course_level := ""
  field_course_image_promoted := none
  field_product_video := none
  field_course_image_featured_card := none
  field_course_self_paced := none
  field_couse_is_hidden := none
  field_course_start_date := none
  field_course_end_date := none
  field_course_required_weeks := none
  field_course_enrollment_mobile := none
  field_course_languages := []
  field_course_video_locale_lang := []
  field_course_school_node := []
  field_course_subject := []
  field_course_staff := []

/-- An existing Published course-run row for the C2 counterexample. -/
def c2Run : CourseRunRecord where
  key := "MITx/6.002x/2012_Spring"
  courseKey := "MITx/6.002x"
  uuid := "run-uuid"
  title_override := "Old Run Title"
  language := none
  slug := "old-slug"
  card_image_url := none
  status := .published
  start := some 100
  endDate := none
  pacing_type := .instructorPaced
  hidden := false
  weeks_to_complete := some 8
  mobile_available := false
  staff := []
  transcript_languages := []

/-- Catalog holding only the existing Published run, for C2. -/
def c2Cat : Catalog :=
  ⟨[], [c2Run], [], [], [], []⟩

/-- Unpublished source node carrying temp data for the same run key, for
C2. -/
def c2Data : CourseNodeData :=
  plainCourseNode "new-uuid" "http://www.example.com/course/new-slug" "0"
    "MITx/6.002x/2012_Spring" "Temp Title"

/-- A minimal persisted run row parameterised by key and uuid, used by the
duplicate-key claim. -/
def plainRun (key uuid : String) : CourseRunRecord where
  key := key
  courseKey := "MITx/6.002x"
  uuid := uuid
  title_override := "A Title"
  language := none
  slug := "a-slug"
  card_image_url := none
  status := .published
  start := none
  endDate := none
  pacing_type := .instructorPaced
  hidden := false
  weeks_to_complete := none
  mobile_available := false
  staff := []
  transcript_languages := []

/-- Catalog holding two runs whose keys collide case-insensitively, the
upstream data-quality fault behind the duplicate-key conflict, for C8. -/
def c8Cat : Catalog :=
  ⟨[], [plainRun "MITx/6.002x/2012_Spring" "dup-a",
    plainRun "mitx/6.002X/2012_spring" "dup-b"], [], [], [], []⟩

/-- A Published source node for the duplicated run key, for C8. -/
def c8Data : CourseNodeData :=
  plainCourseNode "c8-uuid" "http://www.example.com/course/c8-slug" "1"
    "MITx/6.002x/2012_Spring" "C8 Title"

/-- Persisted fields of the existing course for C1, written from an
earlier Published sighting. -/
def c1Fields : CourseFields :=
  ⟨"Real Title", "6.002x", "Real description", "Real short", none,
    some "Intermediate", some "http://www.example.com/promo.jpg"⟩

/-- The existing course row for C1. -/
def c1Course : CourseRecord :=
  ⟨"edx", "MITx/6.002x", c1Fields, [], []⟩

/-- Catalog holding only the existing course, for C1. -/
def c1Cat : Catalog :=
  ⟨[c1Course], [], [], [], [], []⟩

/-- Unpublished source node carrying temp data for the same course key,
for C1. -/
def c1Data : CourseNodeData :=
  plainCourseNode "c1-uuid" "http://www.example.com/course/c1-slug" "0"
    "MITx/6.002x/2012_Spring" "Temp C1 Title"

theorem mem_pythonRange (a b p : Int) : p ∈ pythonRange a b ↔ a ≤ p ∧ p < b := by
  simp only [pythonRange, List.mem_map, List.mem_range]
  constructor
  · rintro ⟨i, hi, hpi⟩
    omega
  · rintro ⟨h1, h2⟩
    exact ⟨(p - a).toNat, by omega, by omega⟩

theorem nodup_pythonRange (a b : Int) : (pythonRange a b).Nodup := by
  simp only [pythonRange]
  refine List.Nodup.map ?_ (List.nodup_range _)
  intro i j h
  simp only at h
  omega

/-- C4: for every first-page response whose pagination metadata contains a
next link and whose first link carries page parameter f and last link page
parameter l, the set of additionally scheduled pages is exactly the integer
range from f + 1 up to but excluding l + 1, with no page scheduled twice
(page 0 was already fetched before range discovery). -/
theorem C4_scheduled_pages_exact_range (meta : PageMeta) (f l : Int)
    (hn : meta.hasNext = true)
    (hf : extract_page meta.first = .ok f)
    (hl : extract_page meta.last = .ok l) :
    ∃ ps : List Int, scheduledPages meta = .ok ps ∧
      (∀ p : Int, p ∈ ps ↔ f + 1 ≤ p ∧ p < l + 1) ∧ ps.Nodup := by
  refine ⟨pythonRange (f + 1) (l + 1), ?_, ?_, nodup_pythonRange _ _⟩
  · simp [scheduledPages, hn, hf, hl]
  · intro p
    exact mem_pythonRange _ _ p

/-- Witness for C4 at the spec's example URLs: first page parameter 0 and
last page parameter 3 schedule exactly the pages 1, 2 and 3. -/
theorem C4_scheduled_pages_exact_range_witness :
    scheduledPages (PageMeta.mk true
        "http://example.com/node.json?type=course&page=0"
        "http://example.com/node.json?type=course&page=3") = .ok [1, 2, 3] ∧
    (∃ ps : List Int,
      scheduledPages (PageMeta.mk true
        "http://example.com/node.json?type=course&page=0"
        "http://example.com/node.json?type=course&page=3") = .ok ps ∧
      (∀ p : Int, p ∈ ps ↔ 0 + 1 ≤ p ∧ p < 3 + 1) ∧ ps.Nodup) :=
  ⟨by rfl, C4_scheduled_pages_exact_range _ 0 3 rfl rfl rfl⟩

/-- C3 is contradicted by the code at this input: on a status-200 page whose
first node lacks the url key, the bare-except handler evaluates the local
variable url before any iteration has bound it, so the logging call raises
UnboundLocalError and the page-level operation propagates it instead of
containing the per-node failure, even though the node processor itself
never ran. -/
theorem C3_first_node_without_url_aborts_page :
    process_response alwaysOkProcess
      (PageResponse.mk "http://example.com/node.json?page=0" 200
        [RawNode.mk none "malformed"]) = .error .unboundLocalError := rfl

theorem weeklyOccAux_nil (fuel : Nat) (cur endTs : Int) (h : ¬ cur ≤ endTs) :
    weeklyOccAux fuel cur endTs = [] := by
  cases fuel with
  | zero => rfl
  | succ n =>
    unfold weeklyOccAux
    rw [if_neg h]

theorem weeklyOccAux_length (fuel : Nat) : ∀ cur endTs : Int,
    (endTs - cur).toNat / 604800 < fuel → cur ≤ endTs →
    (weeklyOccAux fuel cur endTs).length = (endTs - cur).toNat / 604800 + 1 := by
  induction fuel with
  | zero =>
    intro cur endTs h _
    omega
  | succ n ih =>
    intro cur endTs h hle
    unfold weeklyOccAux
    rw [if_pos hle]
    simp only [List.length_cons]
    by_cases h2 : cur + 604800 ≤ endTs
    · rw [ih (cur + 604800) endTs (by omega) h2]
      omega
    · rw [weeklyOccAux_nil n _ _ h2]
      simp only [List.length_nil]
      omega

theorem weeklyOccurrences_length (s e : Int) (h : s ≤ e) :
    (weeklyOccurrences s e).length = (e - s).toNat / 604800 + 1 :=
  weeklyOccAux_length _ s e (by omega) h

/-- C5: for every course-run input with no explicit weeks field and with
numeric start and end timestamps, start before end, the computed
weeks_to_complete is the number of weekly-recurrence occurrences from start
through end inclusive, which exceeds the plain day-difference division by
one. -/
theorem C5_weeks_is_weekly_recurrence_count (sf ef : String) (ns ne : Int)
    (hs : pyInt sf = some ns) (he : pyInt ef = some ne) (hlt : ns < ne) :
    computeWeeksToComplete none (some sf) (some ef) =
      .ok (some ((weeklyOccurrences ns ne).length : Int)) ∧
    (weeklyOccurrences ns ne).length = (ne - ns).toNat / 604800 + 1 := by
  have hsne : ¬ sf = "" := by
    intro h
    rw [h] at hs
    exact Option.noConfusion hs
  have hene : ¬ ef = "" := by
    intro h
    rw [h] at he
    exact Option.noConfusion he
  constructor
  · have hps : parseTimestamp (some sf) = .ok (some ns) := by
      simp [parseTimestamp, hsne, hs]
    have hpe : parseTimestamp (some ef) = .ok (some ne) := by
      simp [parseTimestamp, hene, he]
    simp [computeWeeksToComplete, hps, hpe, weeksFromFields,
      weeksFromFields.weeksFallback]
  · exact weeklyOccurrences_length ns ne (le_of_lt hlt)

/-- Witness for C5 at the spec's example: a start Monday and the Monday
four weeks later (2419200 seconds apart) give five weeks, not the four a
day-difference division would give. -/
theorem C5_weeks_is_weekly_recurrence_count_witness :
    computeWeeksToComplete none (some "0") (some "2419200") = .ok (some 5) ∧
    (computeWeeksToComplete none (some "0") (some "2419200") =
        .ok (some ((weeklyOccurrences 0 2419200).length : Int)) ∧
      (weeklyOccurrences 0 2419200).length =
        ((2419200 : Int) - 0).toNat / 604800 + 1) :=
  ⟨rfl, C5_weeks_is_weekly_recurrence_count "0" "2419200" 0 2419200 rfl rfl
    (by decide)⟩

/-- C6: for every course-run input whose explicit weeks field is present
with an integer value, the resulting weeks_to_complete equals that integer,
whatever the start and end timestamp fields hold (as long as they
themselves parse, which happens before the duration branch). -/
theorem C6_explicit_weeks_field_is_used (w : String) (n : Int)
    (sf ef : Option String) (so eo : Option Int)
    (hw : pyInt w = some n)
    (hs : parseTimestamp sf = .ok so) (he : parseTimestamp ef = .ok eo) :
    computeWeeksToComplete (some w) sf ef = .ok (some n) := by
  have hwne : ¬ w = "" := by
    intro h
    rw [h] at hw
    exact Option.noConfusion hw
  simp [computeWeeksToComplete, hs, he, weeksFromFields, hwne, hw]

/-- Witness for C6: an explicit ten-week field wins although the start and
end timestamps are both present and would compute five weeks. -/
theorem C6_explicit_weeks_field_is_used_witness :
    computeWeeksToComplete (some "10") (some "0") (some "2419200") =
      .ok (some 10) :=
  C6_explicit_weeks_field_is_used "10" 10 (some "0") (some "2419200")
    (some 0) (some 2419200) rfl rfl rfl

/-- C2 is contradicted by the code at this input: the source record is
Unpublished and a run with its key already exists, yet create_course_run
overwrites the existing run's persisted fields in place with the node's
temp data (title override, status and slug all change), because the
update_or_create call carries no Published condition. -/
theorem C2_counterexample_unpublished_source_updates_run :
    get_course_run_status c2Data = .ok RunStatus.unpublished ∧
    c2Cat.runs.map (fun r => (r.title_override, r.status, r.slug)) =
      [("Old Run Title", RunStatus.published, "old-slug")] ∧
    (create_course_run c2Cat "MITx/6.002x" c2Data).map
      (fun res => res.1.runs.map (fun r => (r.title_override, r.status, r.slug))) =
      .ok [("Temp Title", RunStatus.unpublished, "new-slug")] :=
  ⟨rfl, rfl, rfl⟩

/-- C7: for every relation-set field resolved by uuid (course subjects,
authoring organizations, course-run staff), the resulting set holds exactly
the uuids of already-persisted entities that the node references:
unresolved uuids are dropped without an error, and the prior members play
no part in the result, whatever they were. -/
theorem C7_relation_sets_resolve_existing_and_replace
    (db : List RefEntity) (c : CourseRecord) (r : CourseRunRecord)
    (d : CourseNodeData) (u : String) :
    ((u ∈ (set_authoring_organizations db c d).authoring_organizations) ↔
      ((∃ e, e ∈ db ∧ e.uuid = u) ∧
        some u ∈ d.field_course_school_node.map RawRef.uuid)) ∧
    ((u ∈ (set_subjects db c d).subjects) ↔
      ((∃ e, e ∈ db ∧ e.uuid = u) ∧
        some u ∈ d.field_course_subject.map RawRef.uuid)) ∧
    ((u ∈ (set_course_run_staff db r d).staff) ↔
      ((∃ e, e ∈ db ∧ e.uuid = u) ∧
        some u ∈ d.field_course_staff.map RawRef.uuid)) := by
  refine ⟨?_, ?_, ?_⟩ <;>
    · simp only [set_authoring_organizations, set_subjects, set_course_run_staff,
        get_objects_by_uuid, List.mem_map, List.mem_filter, List.contains,
        List.elem_iff]
      constructor
      · rintro ⟨e, ⟨hmem, helem⟩, rfl⟩
        exact ⟨⟨e, hmem, rfl⟩, helem⟩
      · rintro ⟨⟨e, hmem, rfl⟩, helem⟩
        exact ⟨e, ⟨hmem, helem⟩, rfl⟩

/-- C10: the hidden flag of the course-run defaults is true exactly when
the misspelled upstream field is present with the boolean value True; an
absent field, False, or a truthy non-boolean value such as a number or a
non-empty string all leave the run visible. -/
theorem C10_hidden_iff_field_is_boolean_true (courseKey : String)
    (d : CourseNodeData) (language : Option String) (start : Option Int)
    (status : RunStatus) (weeks : Option Int) :
    (course_run_defaults courseKey d language start status weeks).hidden = true ↔
      d.field_couse_is_hidden = some (PyVal.pbool true) := by
  show get_hidden d = true ↔ _
  rcases hv : d.field_couse_is_hidden with _ | (b | n | s)
  · simp [get_hidden, hv]
  · rcases b with _ | _ <;> simp [get_hidden, hv]
  · simp [get_hidden, hv]
  · simp [get_hidden, hv]

/-- C1: for every course node whose derived key already exists in the
catalog and whose source status is Unpublished, processing succeeds and
leaves every mutable field of the existing course (title, number,
descriptions, video, level type, card image URL) at its prior persisted
value, and the preserved course row is still in the catalog; only a
Published source overwrites those fields. -/
theorem C1_unpublished_source_preserves_course_fields (cat : Catalog)
    (partner key : String) (d : CourseNodeData) (c : CourseRecord)
    (start endTs : Option Int) (weeks : Option Int)
    (hkey : get_course_key_from_course_run_key d.field_course_id = some key)
    (hfind : cat.courses.find? (coursePred partner key) = some c)
    (hstatus : get_course_run_status d = .ok RunStatus.unpublished)
    (hstart : parseTimestamp d.field_course_start_date = .ok start)
    (hend : parseTimestamp d.field_course_end_date = .ok endTs)
    (hweeks : weeksFromFields d.field_course_required_weeks start endTs = .ok weeks) :
    ∃ cat2 course3, course_process_node cat partner d = .ok (cat2, course3) ∧
      course3.fields = c.fields ∧ course3 ∈ cat2.courses := by
  have hcmem : c ∈ cat.courses := List.mem_of_find?_eq_some hfind
  have hcpred : coursePred partner key c = true := List.find?_some hfind
  have hst2 : get_course_run_status
      { d with field_course_course_title := clean_html d.field_course_course_title } =
      Except.ok RunStatus.unpublished := hstatus
  simp only [course_process_node, hkey, hfind, hst2, Option.isNone_some,
    Bool.false_eq_true, false_and, and_false, if_false, reduceCtorEq,
    if_true, and_true, eq_self_iff_true]
  rcases hf : cat.runs.filter (runKeyMatches d.field_course_id) with _ | ⟨a, _ | ⟨b, rest⟩⟩ <;>
    · simp only [create_course_run, hstart, hend, hst2, hweeks, hf]
      refine ⟨_, _, rfl, rfl, ?_⟩
      refine List.mem_map.mpr ⟨c, hcmem, ?_⟩
      rw [hcpred]
      rfl

/-- Witness for C1: an Unpublished temp-data node for an existing course
leaves the course's persisted fields untouched. -/
theorem C1_unpublished_source_preserves_course_fields_witness :
    ∃ cat2 course3, course_process_node c1Cat "edx" c1Data = .ok (cat2, course3) ∧
      course3.fields = c1Course.fields ∧ course3 ∈ cat2.courses :=
  C1_unpublished_source_preserves_course_fields c1Cat "edx" "MITx/6.002x"
    c1Data c1Course none none none rfl rfl rfl rfl rfl rfl

/-- C2 amended: processing a CourseRun node whose run key matches exactly
one persisted run updates that run's fields in place unconditionally,
whatever the source status (Unpublished included); only the parent Course
entity's field update is gated on Published. -/
theorem C2_amended_run_update_is_unconditional (cat : Catalog)
    (courseKey : String) (d : CourseNodeData) (r : CourseRunRecord)
    (start endTs : Option Int) (status : RunStatus) (weeks : Option Int)
    (hone : cat.runs.filter (runKeyMatches d.field_course_id) = [r])
    (hstart : parseTimestamp d.field_course_start_date = .ok start)
    (hend : parseTimestamp d.field_course_end_date = .ok endTs)
    (hstatus : get_course_run_status d = .ok status)
    (hweeks : weeksFromFields d.field_course_required_weeks start endTs = .ok weeks) :
    ∃ cat2 r2, create_course_run cat courseKey d = .ok (cat2, some r2) ∧
      r2.title_override = clean_html d.field_course_course_title ∧
      r2.status = status ∧
      r2.slug = lastSegment d.url ∧
      r2.start = start ∧
      r2.weeks_to_complete = weeks ∧
      r2.uuid = d.uuid ∧
      r2 ∈ cat2.runs := by
  have hrfil : r ∈ cat.runs.filter (runKeyMatches d.field_course_id) := by
    rw [hone]
    exact List.mem_singleton.mpr rfl
  have hrmem := (List.mem_filter.mp hrfil).1
  have hrkey := (List.mem_filter.mp hrfil).2
  simp only [create_course_run, hstart, hend, hstatus, hweeks, hone]
  refine ⟨_, _, rfl, rfl, rfl, rfl, rfl, rfl, rfl, ?_⟩
  refine List.mem_map.mpr ⟨r, hrmem, ?_⟩
  rw [hrkey]
  rfl

/-- Witness for the amended C2 at the concrete Unpublished input of the
counterexample: the single matching run is updated in place and the new
row carries the node's temp values. -/
theorem C2_amended_run_update_is_unconditional_witness :
    ∃ cat2 r2, create_course_run c2Cat "MITx/6.002x" c2Data = .ok (cat2, some r2) ∧
      r2.title_override = clean_html c2Data.field_course_course_title ∧
      r2.status = RunStatus.unpublished ∧
      r2.slug = lastSegment c2Data.url ∧
      r2.start = none ∧
      r2.weeks_to_complete = none ∧
      r2.uuid = c2Data.uuid ∧
      r2 ∈ cat2.runs :=
  C2_amended_run_update_is_unconditional c2Cat "MITx/6.002x" c2Data c2Run
    none none RunStatus.unpublished none rfl rfl rfl rfl rfl

/-- C8: for every CourseRun node whose key matches two or more persisted
runs, and whose scalar fields parse, create_course_run returns None
without raising and without writing anything: the duplicate-key conflict
raised by the persistence layer is caught and logged, a soft failure. -/
theorem C8_duplicate_run_keys_soft_skip (cat : Catalog) (courseKey : String)
    (d : CourseNodeData) (start endTs : Option Int) (status : RunStatus)
    (weeks : Option Int)
    (hstart : parseTimestamp d.field_course_start_date = .ok start)
    (hend : parseTimestamp d.field_course_end_date = .ok endTs)
    (hstatus : get_course_run_status d = .ok status)
    (hweeks : weeksFromFields d.field_course_required_weeks start endTs = .ok weeks)
    (hdup : 2 ≤ (cat.runs.filter (runKeyMatches d.field_course_id)).length) :
    create_course_run cat courseKey d = .ok (cat, none) := by
  rcases hf : cat.runs.filter (runKeyMatches d.field_course_id) with _ | ⟨a, _ | ⟨b, rest⟩⟩
  · rw [hf] at hdup
    simp at hdup
  · rw [hf] at hdup
    simp at hdup
  · simp only [create_course_run, hstart, hend, hstatus, hweeks, hf]

/-- Witness for C8: two persisted runs collide case-insensitively on the
node's run key, and the node is skipped with the catalog unchanged. -/
theorem C8_duplicate_run_keys_soft_skip_witness :
    create_course_run c8Cat "MITx/6.002x" c8Data = .ok (c8Cat, none) :=
  C8_duplicate_run_keys_soft_skip c8Cat "MITx/6.002x" c8Data none none
    RunStatus.published none rfl rfl rfl rfl (by decide)

/-- C9 is contradicted by the code at this input: lstrip with the heading
string removes any leading characters drawn from the set of characters of
the heading, so body text that does not start with the literal heading is
still mangled, while the specification's literal-prefix trim leaves it
intact. -/
theorem C9_lstrip_strips_charset_not_literal_prefix :
    xseriesOverview "Program materials" = "terials" ∧
    xseriesOverviewSpec "Program materials" = "Program materials" :=
  ⟨rfl, rfl⟩

end MarketingSite
